import Mathlib

/-!
Verification development for the ai-chat-context browser extension.

The TypeScript sources are shallowly embedded:
* JavaScript numbers that hold token counts are natural numbers; the one
  division the code performs (`currentTokens / maxTokens`) is modelled in ℚ
  (inputs are integers, and no claim depends on binary floating-point noise).
* `Math.round` on a non-negative value is `⌊x + 1/2⌋` (half up), exactly the
  JavaScript semantics.
* JavaScript `Map` is an insertion-ordered association list: `set` of an
  existing key updates the value in place (keeping the original position),
  `set` of a fresh key appends.
* DOM extraction, which the specification treats as an external collaborator,
  is a parameter of each embedded pass (the lists of extracted message texts,
  the input text, the resolved model limit).
-/

/-- JavaScript `Math.round`: round half up, `⌊x + 1/2⌋`. -/
def jsRound (q : ℚ) : ℤ := ⌊q + 1/2⌋

/-- Presentation tier of the usage indicator. -/
inductive Tier where
  | normal
  | warning
  | critical
  | overflow
  deriving DecidableEq, Repr

/-- Observable state that `ContextIndicator.update` leaves on the badge:
the loading branch, the colour scheme, the flashing animation, the scroll
warning icon and the displayed (rounded) percentage. -/
structure IndicatorView where
  loading : Bool
  bg : String
  border : String
  textColor : String
  flashing : Bool
  scrollWarn : Bool
  pctShown : ℤ
  deriving DecidableEq, Repr

/-- The view produced by the `isLoading` early-return branch of `update`
(src/components/ContextIndicator.ts, lines 84-94). -/
def loadingView : IndicatorView :=
  { loading := true, bg := "#f5f5f5", border := "#bdbdbd", textColor := "#757575"
  , flashing := false, scrollWarn := false, pctShown := 0 }

/-- Embedding of `update` in src/components/ContextIndicator.ts (lines 82-149).
`percentage = Math.round((currentTokens / maxTokens) * 100)`; colours branch on
`percentage > 90` / `percentage > 70`, and the flash animation is added only
when `percentage >= 100`. -/
def updateView (currentTokens maxTokens : ℕ) (hasScroll isLoading : Bool) :
    IndicatorView :=
  if isLoading then loadingView
  else
    let pct : ℤ := jsRound ((currentTokens : ℚ) / (maxTokens : ℚ) * 100)
    if pct > 90 then
      { loading := false, bg := "#ffebee", border := "#f44336", textColor := "#c62828"
      , flashing := decide (pct ≥ 100), scrollWarn := hasScroll, pctShown := pct }
    else if pct > 70 then
      { loading := false, bg := "#fff3e0", border := "#ff9800", textColor := "#e65100"
      , flashing := false, scrollWarn := hasScroll, pctShown := pct }
    else
      { loading := false, bg := "#e8f5e9", border := "#4caf50", textColor := "#2e7d32"
      , flashing := false, scrollWarn := hasScroll, pctShown := pct }

/-- Reads the tier off the rendered view: green background is `normal`, amber
is `warning`, red without the flash animation is `critical`, red with it is
`overflow`. -/
def tierOfView (v : IndicatorView) : Tier :=
  if v.bg = "#e8f5e9" then .normal
  else if v.bg = "#fff3e0" then .warning
  else if v.flashing then .overflow
  else .critical

/-- Tier map written exactly from the specification's words (§4.6): thresholds
compared on the raw ratio `currentTokens / maxTokens`, ties going to the
cooler tier.  Used only to compare the spec against the code. -/
def specTier (currentTokens maxTokens : ℕ) : Tier :=
  let p : ℚ := (currentTokens : ℚ) / (maxTokens : ℚ)
  if p ≤ 7/10 then .normal
  else if p ≤ 9/10 then .warning
  else if p < 1 then .critical
  else .overflow

/-- For integer inputs with a non-zero denominator, the rounded percentage is
a natural-number division, which lets concrete views be evaluated by `decide`. -/
lemma jsRound_pct (c m : ℕ) (hm : m ≠ 0) :
    jsRound ((c : ℚ) / (m : ℚ) * 100) = ((200 * c + m) / (2 * m) : ℕ) := by
  unfold jsRound
  have hm' : (m : ℚ) ≠ 0 := Nat.cast_ne_zero.mpr hm
  have h : (c : ℚ) / (m : ℚ) * 100 + 1/2
      = ((200 * c + m : ℕ) : ℚ) / ((2 * m : ℕ) : ℚ) := by
    push_cast
    field_simp
    ring
  rw [h, Rat.floor_natCast_div_natCast]
  exact (Int.ofNat_div _ _).symm

/-- Natural-number evaluator for the non-loading branch of `updateView`. -/
def updateViewN (currentTokens maxTokens : ℕ) (hasScroll : Bool) : IndicatorView :=
  let pct : ℤ := ((200 * currentTokens + maxTokens) / (2 * maxTokens) : ℕ)
  if pct > 90 then
    { loading := false, bg := "#ffebee", border := "#f44336", textColor := "#c62828"
    , flashing := decide (pct ≥ 100), scrollWarn := hasScroll, pctShown := pct }
  else if pct > 70 then
    { loading := false, bg := "#fff3e0", border := "#ff9800", textColor := "#e65100"
    , flashing := false, scrollWarn := hasScroll, pctShown := pct }
  else
    { loading := false, bg := "#e8f5e9", border := "#4caf50", textColor := "#2e7d32"
    , flashing := false, scrollWarn := hasScroll, pctShown := pct }

lemma updateView_eq_N (c m : ℕ) (hm : m ≠ 0) (hs : Bool) :
    updateView c m hs false = updateViewN c m hs := by
  unfold updateView updateViewN
  rw [if_neg (by simp)]
  rw [jsRound_pct c m hm]

/-- Rational comparisons of `specTier` turned into integer comparisons. -/
lemma specTier_eval (c m : ℕ) (hm : m ≠ 0) :
    specTier c m =
      (if 10 * c ≤ 7 * m then Tier.normal
       else if 10 * c ≤ 9 * m then Tier.warning
       else if c < m then Tier.critical
       else Tier.overflow) := by
  have hm0 : (0 : ℚ) < (m : ℚ) := by
    exact_mod_cast Nat.pos_of_ne_zero hm
  unfold specTier
  have h1 : ((c : ℚ) / (m : ℚ) ≤ 7/10) ↔ (10 * c ≤ 7 * m) := by
    rw [div_le_div_iff₀ hm0 (by norm_num),
      show ((c : ℚ) * 10) = ((10 * c : ℕ) : ℚ) by push_cast; ring,
      show ((7 : ℚ) * m) = ((7 * m : ℕ) : ℚ) by push_cast; ring]
    exact Nat.cast_le
  have h2 : ((c : ℚ) / (m : ℚ) ≤ 9/10) ↔ (10 * c ≤ 9 * m) := by
    rw [div_le_div_iff₀ hm0 (by norm_num),
      show ((c : ℚ) * 10) = ((10 * c : ℕ) : ℚ) by push_cast; ring,
      show ((9 : ℚ) * m) = ((9 * m : ℕ) : ℚ) by push_cast; ring]
    exact Nat.cast_le
  have h3 : ((c : ℚ) / (m : ℚ) < 1) ↔ (c < m) := by
    rw [div_lt_one hm0]
    exact Nat.cast_lt
  simp only [h1, h2, h3]

/-- The proposition stated by claim C1: the indicator tier agrees with the
specification's ratio-threshold tier map, and the flashing attribute is set
exactly when the ratio reaches 1. -/
def ClaimC1 : Prop :=
  ∀ c m : ℕ, 0 < m →
    tierOfView (updateView c m false false) = specTier c m ∧
    ((updateView c m false false).flashing = true ↔ (1 : ℚ) ≤ (c : ℚ) / (m : ℚ))

/-- Tier map of the amended claim: thresholds are applied to the rounded
integer percentage `Math.round(100 * current / max)`, not to the raw ratio. -/
def roundTier (c m : ℕ) : Tier :=
  let pct : ℤ := jsRound ((c : ℚ) / (m : ℚ) * 100)
  if pct ≤ 70 then .normal
  else if pct ≤ 90 then .warning
  else if pct < 100 then .critical
  else .overflow

/-- C1: the indicator does NOT classify on the raw ratio.  At
`currentTokens = 704`, `maxTokens = 1000` the ratio is `0.704`, strictly
between `0.7` and `0.9`, so the claim requires tier `warning`; the code rounds
the percentage to `70` first and renders `normal`.  (The spec's own probe
`0.70000001 → warning` fails the same way.) -/
theorem C1_tier_map_counterexample : ¬ ClaimC1 := by
  intro h
  have h1 := (h 704 1000 (by norm_num)).1
  rw [updateView_eq_N 704 1000 (by norm_num) false,
    specTier_eval 704 1000 (by norm_num)] at h1
  revert h1
  decide

/-- C1 (amended): for every `maxTokens > 0` the tier is determined by the
rounded integer percentage `pct = Math.round(100 * current / max)`: `normal`
iff `pct ≤ 70`, `warning` iff `70 < pct ≤ 90`, `critical` iff
`90 < pct < 100`, and the flashing overflow rendering iff `pct ≥ 100`.
The spec's boundary probes become: `0.70 → normal`, `0.70000001 → normal`,
`0.90 → warning`, `0.900001 → warning`, `1.0 → overflow` with flashing. -/
theorem C1_round_tier_map :
    (∀ c m : ℕ, 0 < m →
      tierOfView (updateView c m false false) = roundTier c m ∧
      ((updateView c m false false).flashing = true ↔
        100 ≤ jsRound ((c : ℚ) / (m : ℚ) * 100))) ∧
    tierOfView (updateView 70 100 false false) = .normal ∧
    tierOfView (updateView 70000001 100000000 false false) = .normal ∧
    tierOfView (updateView 90 100 false false) = .warning ∧
    tierOfView (updateView 900001 1000000 false false) = .warning ∧
    tierOfView (updateView 10 10 false false) = .overflow ∧
    (updateView 10 10 false false).flashing = true := by
  refine ⟨fun c m hm => ?_, ?_, ?_, ?_, ?_, ?_, ?_⟩
  · have hm' : m ≠ 0 := Nat.pos_iff_ne_zero.mp hm
    rw [updateView_eq_N c m hm' false]
    unfold updateViewN roundTier tierOfView
    rw [jsRound_pct c m hm']
    set pct : ℤ := (((200 * c + m) / (2 * m) : ℕ) : ℤ) with hpct
    by_cases h90 : pct > 90
    · by_cases h100 : pct ≥ 100
      · simp only [if_pos h90]
        simp [h90, h100]
        try constructor
        all_goals try (split_ifs <;> first | rfl | omega)
        all_goals omega
      · simp only [if_pos h90]
        simp [h90, h100]
        try constructor
        all_goals try (split_ifs <;> first | rfl | omega)
        all_goals omega
    · by_cases h70 : pct > 70
      · simp only [if_neg h90, if_pos h70]
        simp [h90, h70]
        try constructor
        all_goals try (split_ifs <;> first | rfl | omega)
        all_goals omega
      · simp only [if_neg h90, if_neg h70]
        simp [h90, h70]
        try constructor
        all_goals try (split_ifs <;> first | rfl | omega)
        all_goals omega
  · rw [updateView_eq_N 70 100 (by norm_num) false]; decide
  · rw [updateView_eq_N 70000001 100000000 (by norm_num) false]; decide
  · rw [updateView_eq_N 90 100 (by norm_num) false]; decide
  · rw [updateView_eq_N 900001 1000000 (by norm_num) false]; decide
  · rw [updateView_eq_N 10 10 (by norm_num) false]; decide
  · rw [updateView_eq_N 10 10 (by norm_num) false]; decide

/-- Witness for C1 (amended): the quantified part applied at a concrete input. -/
theorem C1_round_tier_map_witness :
    0 < (1000 : ℕ) ∧
    (tierOfView (updateView 850 1000 false false) = roundTier 850 1000 ∧
      ((updateView 850 1000 false false).flashing = true ↔
        100 ≤ jsRound ((850 : ℚ) / (1000 : ℚ) * 100))) :=
  ⟨by norm_num, (C1_round_tier_map.1 850 1000 (by norm_num))⟩

/-! ## Request Bridge (token counting with fallback)

`countTokens` in src/unnamed/part_002 sends a `COUNT_TOKENS` request to the
service worker and receives `{success: true, count}` or `{success: false,
error}`; a failure response is re-thrown inside the `try`, and the `catch`
returns `Math.ceil(text.length / 4)`.  `countTokens` in
src/utils/tokenizer.ts has the same `try`/`catch` → `Math.ceil(length / 4)`
shape around the direct encoder call.  The possible outcomes of one request
round-trip are the constructors of `SvcResp`. -/

/-- Outcome of one count request: a successful response carrying a count, an
`{ok: false}` response from the Encoding Service, or a channel-level failure
(rejected `sendMessage`, missing receiver, thrown exception). -/
inductive SvcResp where
  | success (n : ℕ)
  | failure (e : String)
  | channelError (e : String)
  deriving DecidableEq, Repr

/-- `Math.ceil(text.length / 4)` on a natural number length. -/
def fallbackEstimate (text : String) : ℕ := (text.length + 3) / 4

/-- The body of the `try` block: a success response returns the count, a
failure response is thrown (`throw new Error(response.error)`), and a channel
error surfaces as the rejection of the awaited `sendMessage`. -/
def bridgeTry (r : SvcResp) : Except String ℕ :=
  match r with
  | .success n => .ok n
  | .failure e => .error e
  | .channelError e => .error e

/-- Embedding of the Request Bridge's `countTokens`: the `try` body wrapped in
the `catch` that converts every error into the fallback estimate. -/
def countTokensRun (r : SvcResp) (text : String) : Except String ℕ :=
  match bridgeTry r with
  | .ok n => .ok n
  | .error _ => .ok (fallbackEstimate text)

/-- The numeric value `countTokens` resolves with. -/
def countTokensVal (r : SvcResp) (text : String) : ℕ :=
  match r with
  | .success n => n
  | _ => fallbackEstimate text

lemma countTokensRun_eq_val (r : SvcResp) (text : String) :
    countTokensRun r text = .ok (countTokensVal r text) := by
  cases r <;> rfl

/-- C4: `countTokens` never throws — every outcome resolves with `.ok` — and
on any failure (error response or channel error/exception) the resolved value
is exactly `ceil(length / 4)`; the last conjunct pins `fallbackEstimate` to
the mathematical ceiling of `length / 4`. -/
theorem C4_fallback_no_throw :
    (∀ (r : SvcResp) (t : String), ∃ n, countTokensRun r t = .ok n) ∧
    (∀ (r : SvcResp) (t : String), (∀ n, r ≠ .success n) →
      countTokensRun r t = .ok (fallbackEstimate t)) ∧
    (∀ t : String,
      t.length ≤ 4 * fallbackEstimate t ∧ 4 * fallbackEstimate t < t.length + 4) := by
  refine ⟨fun r t => ⟨countTokensVal r t, countTokensRun_eq_val r t⟩, fun r t hr => ?_, fun t => ?_⟩
  · cases r with
    | success n => exact absurd rfl (hr n)
    | failure e => rfl
    | channelError e => rfl
  · unfold fallbackEstimate
    omega

/-- Witness for C4 at a concrete failing outcome. -/
theorem C4_fallback_no_throw_witness :
    (∀ n, SvcResp.channelError "Could not establish connection" ≠ .success n) ∧
    countTokensRun (.channelError "Could not establish connection") "Hello" =
      .ok (fallbackEstimate "Hello") :=
  ⟨(fun n h => nomatch h),
   C4_fallback_no_throw.2.1 (.channelError "Could not establish connection") "Hello"
     (fun n h => nomatch h)⟩

/-! ## Token Cache

The trackers keep `tokenCache : Map<string, number>`.  A JavaScript `Map`
iterates in insertion order and `set` on an existing key keeps the key's
original position, so the cache is embedded as an insertion-ordered
association list.  The capacity policy (claude.ts lines 519-523, chatgpt.ts
lines 494-498) is
`if (size > 1000) tokenCache = new Map(Array.from(entries()).slice(-500))`. -/

/-- `Map.get` / `Map.has`: first (only) binding of the key. -/
def mapGet {α : Type} [DecidableEq α] (c : List (α × ℕ)) (k : α) : Option ℕ :=
  match c with
  | [] => none
  | (k', v) :: rest => if k' = k then some v else mapGet rest k

/-- `Map.set`: update in place if the key is present, else append. -/
def mapSet {α : Type} [DecidableEq α] (c : List (α × ℕ)) (k : α) (v : ℕ) :
    List (α × ℕ) :=
  match c with
  | [] => [(k, v)]
  | (k', v') :: rest => if k' = k then (k, v) :: rest else (k', v') :: mapSet rest k v

/-- The end-of-pass capacity policy: over 1,000 entries, keep only the last
500 in insertion order (`Array.from(entries()).slice(-500)`). -/
def pruneCache {α : Type} (c : List (α × ℕ)) : List (α × ℕ) :=
  if c.length > 1000 then c.drop (c.length - 500) else c

/-- Folding `Map.set` over a list of fresh bindings. -/
def insertAll {α : Type} [DecidableEq α] (c : List (α × ℕ)) (ps : List (α × ℕ)) :
    List (α × ℕ) :=
  ps.foldl (fun acc p => mapSet acc p.1 p.2) c

lemma mapGet_eq_none_iff {α : Type} [DecidableEq α] (c : List (α × ℕ)) (k : α) :
    mapGet c k = none ↔ ∀ p ∈ c, p.1 ≠ k := by
  induction c with
  | nil => simp [mapGet]
  | cons p rest ih =>
    obtain ⟨k', v⟩ := p
    by_cases h : k' = k
    · subst h
      simp [mapGet]
    · simp [mapGet, h, ih]

lemma mapSet_fresh {α : Type} [DecidableEq α] (c : List (α × ℕ)) (k : α) (v : ℕ)
    (h : mapGet c k = none) : mapSet c k v = c ++ [(k, v)] := by
  induction c with
  | nil => rfl
  | cons p rest ih =>
    obtain ⟨k', v'⟩ := p
    rw [mapGet_eq_none_iff] at h
    have hk : k' ≠ k := h (k', v') (by simp)
    have hrest : mapGet rest k = none := by
      rw [mapGet_eq_none_iff]
      exact fun p hp => h p (by simp [hp])
    simp [mapSet, hk, ih hrest]

lemma mapGet_append_notin {α : Type} [DecidableEq α] (c d : List (α × ℕ)) (k : α)
    (h : mapGet c k = none) : mapGet (c ++ d) k = mapGet d k := by
  induction c with
  | nil => rfl
  | cons p rest ih =>
    obtain ⟨k', v'⟩ := p
    rw [mapGet_eq_none_iff] at h
    have hk : k' ≠ k := h (k', v') (by simp)
    have hrest : mapGet rest k = none := by
      rw [mapGet_eq_none_iff]
      exact fun p hp => h p (by simp [hp])
    simp [mapGet, hk, ih hrest]

/-- Inserting a list of bindings whose keys are fresh for the cache and
mutually distinct appends them in order: JavaScript `Map` iteration order is
insertion order. -/
lemma insertAll_fresh {α : Type} [DecidableEq α] :
    ∀ (ps : List (α × ℕ)) (c : List (α × ℕ)),
      (∀ p ∈ ps, mapGet c p.1 = none) → (ps.map Prod.fst).Nodup →
      insertAll c ps = c ++ ps := by
  intro ps
  induction ps with
  | nil => intro c _ _; simp [insertAll]
  | cons p rest ih =>
    intro c hfresh hnodup
    obtain ⟨k, v⟩ := p
    have hc : mapGet c k = none := hfresh (k, v) (by simp)
    have hstep : mapSet c k v = c ++ [(k, v)] := mapSet_fresh c k v hc
    have hnodup' : (rest.map Prod.fst).Nodup := (List.nodup_cons.mp hnodup).2
    have hknotin : k ∉ rest.map Prod.fst := (List.nodup_cons.mp hnodup).1
    have hfresh' : ∀ q ∈ rest, mapGet (c ++ [(k, v)]) q.1 = none := by
      intro q hq
      rw [mapGet_append_notin c [(k, v)] q.1 (hfresh q (by simp [hq]))]
      have : q.1 ≠ k := by
        intro hqk
        exact hknotin (hqk ▸ List.mem_map_of_mem Prod.fst hq)
      simp [mapGet, Ne.symm this]
    calc insertAll c ((k, v) :: rest)
        = insertAll (mapSet c k v) rest := rfl
      _ = insertAll (c ++ [(k, v)]) rest := by rw [hstep]
      _ = (c ++ [(k, v)]) ++ rest := ih (c ++ [(k, v)]) hfresh' hnodup'
      _ = c ++ ((k, v) :: rest) := by simp

/-- C5: whenever the cache holds more than 1,000 entries at the end of a pass,
the capacity policy keeps exactly 500, and they are precisely the most
recently inserted 500 (the suffix of the insertion order).  In particular,
inserting `n > 1000` distinct keys into an empty cache leaves exactly the last
500 of them, in insertion order — access order plays no role, since `Map.get`
never reorders the association list. -/
theorem C5_capacity_policy {α : Type} [DecidableEq α] (ps : List (α × ℕ))
    (hlen : 1000 < ps.length) (hnodup : (ps.map Prod.fst).Nodup) :
    pruneCache (insertAll [] ps) = ps.drop (ps.length - 500) ∧
    (pruneCache (insertAll [] ps)).length = 500 := by
  have hins : insertAll [] ps = ps :=
    insertAll_fresh ps [] (fun p _ => rfl) hnodup
  rw [hins]
  unfold pruneCache
  rw [if_pos hlen]
  refine ⟨rfl, ?_⟩
  rw [List.length_drop]
  omega

/-- Witness for C5: 1,001 distinct keys leave exactly the last 500 entries. -/
theorem C5_capacity_policy_witness :
    (1000 < ((List.range 1001).map (fun i => (i, 0))).length ∧
      (((List.range 1001).map (fun i => (i, 0))).map Prod.fst).Nodup) ∧
    (pruneCache (insertAll [] ((List.range 1001).map (fun i => (i, 0)))) =
        ((List.range 1001).map (fun i => (i, 0))).drop
          (((List.range 1001).map (fun i => (i, 0))).length - 500) ∧
      (pruneCache (insertAll [] ((List.range 1001).map (fun i => (i, 0))))).length = 500) := by
  have h1 : 1000 < ((List.range 1001).map (fun i => (i, 0))).length := by
    simp
  have h2 : (((List.range 1001).map (fun i => (i, 0))).map Prod.fst).Nodup := by
    rw [List.map_map]
    have hcomp : (Prod.fst ∘ fun i : ℕ => (i, 0)) = id := rfl
    rw [hcomp, List.map_id]
    exact List.nodup_range 1001
  exact ⟨⟨h1, h2⟩, C5_capacity_policy _ h1 h2⟩

/-! ## Recomputation passes (`calculateContext`)

The DOM adapter is external: a pass receives the extracted user/assistant
message texts, the extracted input text (`none` when no input field is
found), the resolved model limit (`none` when the current model is absent
from the table, in which case the code falls back to a constant), and a
function giving the outcome of the count request for each text. -/

/-- One argument tuple passed to `contextIndicator.update`: positionally
`(currentTokens, maxTokens, hasScrollableContent, isLoading)`. -/
structure UpdateCall where
  current : ℕ
  maxTokens : ℕ
  hasScroll : Bool
  isLoading : Bool
  deriving DecidableEq, Repr

/-- Rendering an emitted update call through the indicator. -/
def renderCall (u : UpdateCall) : IndicatorView :=
  updateView u.current u.maxTokens u.hasScroll u.isLoading

/-- The UI-button labels removed from assistant message text by
`text.replace(/(Copy|Edit|Retry|Good response|Bad response|Share|Switch model)/g, '')`
in claude.ts line 462, in the regex's alternation order. -/
def uiTokens : List (List Char) :=
  [String.toList "Copy", String.toList "Edit", String.toList "Retry",
   String.toList "Good response", String.toList "Bad response",
   String.toList "Share", String.toList "Switch model"]

/-- Length of the alternative matched at the current position, if any
(leftmost alternative first, as in a regex alternation). -/
def findUi (l : List Char) : Option ℕ :=
  uiTokens.findSome? (fun t => if t.isPrefixOf l then some t.length else none)

/-- Global replacement of the alternation by the empty string.  Fuel-driven so
that the recursion is structural; each step consumes at least one character,
so `fuel = l.length` never runs out. -/
def stripUiGo : ℕ → List Char → List Char
  | _, [] => []
  | 0, l => l
  | fuel + 1, c :: rest =>
    match findUi (c :: rest) with
    | some k => stripUiGo fuel (rest.drop (k - 1))
    | none => c :: stripUiGo fuel rest

def stripUi (l : List Char) : List Char := stripUiGo l.length l

/-- Whitespace for JavaScript `String.prototype.trim` (the characters that
occur in practice; the full JS set also has unicode spaces). -/
def jsWS (c : Char) : Bool :=
  c = ' ' || c = '\t' || c = '\n' || c = '\r'

/-- `text.trim()`. -/
def jsTrim (s : String) : String :=
  String.mk (((s.toList.dropWhile jsWS).reverse.dropWhile jsWS).reverse)

/-- `text.replace(...ui buttons...).trim()` applied to assistant messages. -/
def cleanAssistant (s : String) : String := jsTrim (String.mk (stripUi s.toList))

/-- `text.substring(0, 100)` used to build cache keys. -/
def keyPrefix (s : String) : String := String.mk (s.toList.take 100)

/-- Cache lookup/update step for one message (claude.ts lines 444-456 and
459-473, chatgpt.ts lines 434-445 and 448-459): on a hit the cached count is
added; on a miss the Request Bridge is consulted and its value is both cached
and added. -/
def cacheStep (svc : String → SvcResp) (rolePrefix : String)
    (acc : List (String × ℕ) × ℕ) (text : String) : List (String × ℕ) × ℕ :=
  let key := rolePrefix ++ keyPrefix text
  match mapGet acc.1 key with
  | some v => (acc.1, acc.2 + v)
  | none =>
    let t := countTokensVal (svc text) text
    (mapSet acc.1 key t, acc.2 + t)

/-- The placeholder strings filtered out of the Claude input field. -/
def claudePlaceholders : List String :=
  ["Reply to Claude...", "Write your prompt to Claude", "How can I help you today?"]

/-- Inputs of one Claude recomputation pass supplied by the (external) DOM
adapter and the messaging channel. -/
structure ClaudeEnv where
  userMsgs : List String
  asstMsgs : List String
  inputText : Option String
  svc : String → SvcResp
  modelLimit : Option ℕ
  pathname : String

/-- Mutable tracker state touched by a Claude pass. -/
structure ClaudeCalcState where
  tokenCache : List (String × ℕ)
  isCalculating : Bool
  hasCompletedInitialLoad : Bool
  deriving Repr

/-- Embedding of `ClaudeContextTracker.calculateContext` (claude.ts lines
386-529): guard on `isCalculating`; per-message cache/count loop over user
messages, then over cleaned assistant messages; input-field text counted
unless empty or a placeholder; `maxTokens` from the model table with the
50,000 fallback; `shouldKeepLoading` raciness flag; the single
`update(totalTokens, maxTokens, shouldKeepLoading)` call — whose third
positional argument is `hasScrollableContent`, not `isLoading`; finally the
capacity policy, and `isCalculating` is reset by `finally`. -/
def calcClaude (env : ClaudeEnv) (st : ClaudeCalcState) :
    ClaudeCalcState × List UpdateCall :=
  if st.isCalculating then (st, [])
  else
    let s1 := env.userMsgs.foldl (cacheStep env.svc "user-") (st.tokenCache, 0)
    let s2 := (env.asstMsgs.map cleanAssistant).foldl
      (cacheStep env.svc "assistant-") s1
    let total :=
      match env.inputText with
      | none => s2.2
      | some s =>
        if s ≠ "" ∧ s ∉ claudePlaceholders then
          s2.2 + countTokensVal (env.svc s) s
        else s2.2
    let maxTokens := env.modelLimit.getD 50000
    let hasMessages := env.userMsgs ≠ [] ∨ env.asstMsgs ≠ []
    let isNewChat := env.pathname = "/new" ∨ env.pathname = "/"
    let shouldKeepLoading := ¬ st.hasCompletedInitialLoad ∧ ¬ hasMessages ∧ ¬ isNewChat
    let completed := st.hasCompletedInitialLoad ∨ (hasMessages ∨ isNewChat)
    ({ tokenCache := pruneCache s2.1, isCalculating := false,
       hasCompletedInitialLoad := completed },
     [{ current := total, maxTokens := maxTokens,
        hasScroll := decide shouldKeepLoading, isLoading := false }])

/-- The concrete end-to-end scenario of claim C7: user fragment counting 1,
assistant fragment counting 3, input counting 1, `maxTokens = 10`. -/
def envC7 : ClaudeEnv :=
  { userMsgs := ["Hello"]
  , asstMsgs := ["Hi there!"]
  , inputText := some "More"
  , svc := fun t =>
      if t = "Hello" then .success 1
      else if t = "Hi there!" then .success 3
      else if t = "More" then .success 1
      else .success 0
  , modelLimit := some 10
  , pathname := "/chat/abc" }

/-- C7: with fragments "Hello" (count 1) and "Hi there!" (count 3), input
"More" (count 1) and `maxTokens = 10`, one completed Claude pass emits the
snapshot `current = 5, max = 10`, whose ratio is `0.5`, rendered in the
`normal` tier and not in the loading state. -/
theorem C7_end_to_end :
    (calcClaude envC7 ⟨[], false, false⟩).2 = [⟨5, 10, false, false⟩] ∧
    (5 : ℚ) / 10 = 1/2 ∧
    tierOfView (renderCall ⟨5, 10, false, false⟩) = .normal ∧
    (renderCall ⟨5, 10, false, false⟩).loading = false := by
  refine ⟨by decide, by norm_num, ?_, ?_⟩
  · show tierOfView (updateView 5 10 false false) = .normal
    rw [updateView_eq_N 5 10 (by norm_num) false]
    decide
  · show (updateView 5 10 false false).loading = false
    rw [updateView_eq_N 5 10 (by norm_num) false]
    decide

/-- Environment of the C3 counterexample: one user message whose count
request fails at the channel level, so the Request Bridge resolves with the
fallback estimate. -/
def envC3 : ClaudeEnv :=
  { userMsgs := ["Hello"]
  , asstMsgs := []
  , inputText := none
  , svc := fun _ => .channelError "Could not establish connection"
  , modelLimit := some 200000
  , pathname := "/chat/x" }

/-- C3: the fallback estimate IS stored in the Token Cache.  The count request
for "Hello" fails, `countTokens` resolves with the fallback
`ceil(5/4) = 2`, and the pass caches exactly that value under the message's
key — contradicting the claim that fallback values are never cached. -/
theorem C3_fallback_cached_counterexample :
    envC3.svc "Hello" = .channelError "Could not establish connection" ∧
    countTokensRun (envC3.svc "Hello") "Hello" = .ok (fallbackEstimate "Hello") ∧
    fallbackEstimate "Hello" = 2 ∧
    mapGet (calcClaude envC3 ⟨[], false, false⟩).1.tokenCache "user-Hello" =
      some (fallbackEstimate "Hello") := by
  exact ⟨rfl, rfl, by decide, by decide⟩

/-- C3 (amended): for every message text whose count request fails, the
caller of `countTokens` cannot distinguish the fallback from an authoritative
count, and the pass stores `ceil(length / 4)` in the Token Cache under the
message's key exactly like an encoder count. -/
theorem C3_fallback_is_cached (text : String) :
    mapGet (calcClaude
        ⟨[text], [], none, fun _ => SvcResp.channelError "no receiver",
          some 200000, "/chat/x"⟩
        ⟨[], false, false⟩).1.tokenCache ("user-" ++ keyPrefix text) =
    some (fallbackEstimate text) := by
  simp [calcClaude, cacheStep, mapGet, mapSet, countTokensVal, pruneCache]

/-- Summing a message list through the cache: when every key is fresh for the
cache and the keys are mutually distinct, the fold appends one binding per
message and adds exactly the bridge's count for each message. -/
lemma cacheStep_foldl (svc : String → SvcResp) (pre : String) :
    ∀ (msgs : List String) (c : List (String × ℕ)) (t : ℕ),
      (∀ s ∈ msgs, mapGet c (pre ++ keyPrefix s) = none) →
      (msgs.map (fun s => pre ++ keyPrefix s)).Nodup →
      msgs.foldl (cacheStep svc pre) (c, t) =
        (c ++ msgs.map (fun s => (pre ++ keyPrefix s, countTokensVal (svc s) s)),
         t + (msgs.map (fun s => countTokensVal (svc s) s)).sum) := by
  intro msgs
  induction msgs with
  | nil => intro c t _ _; simp
  | cons m rest ih =>
    intro c t hfresh hnodup
    have hkey : mapGet c (pre ++ keyPrefix m) = none := hfresh m (by simp)
    have hstep : cacheStep svc pre (c, t) m =
        (c ++ [(pre ++ keyPrefix m, countTokensVal (svc m) m)],
         t + countTokensVal (svc m) m) := by
      simp only [cacheStep, hkey]
      rw [mapSet_fresh c _ _ hkey]
    have hknotin : (pre ++ keyPrefix m) ∉ rest.map (fun s => pre ++ keyPrefix s) :=
      (List.nodup_cons.mp hnodup).1
    have hnodup' : (rest.map (fun s => pre ++ keyPrefix s)).Nodup :=
      (List.nodup_cons.mp hnodup).2
    have hfresh' : ∀ s ∈ rest,
        mapGet (c ++ [(pre ++ keyPrefix m, countTokensVal (svc m) m)])
          (pre ++ keyPrefix s) = none := by
      intro s hs
      rw [mapGet_append_notin c _ _ (hfresh s (by simp [hs]))]
      have hne : pre ++ keyPrefix m ≠ pre ++ keyPrefix s := by
        intro he
        exact hknotin (he ▸ List.mem_map_of_mem (fun s => pre ++ keyPrefix s) hs)
      simp [mapGet, hne]
    calc ((m :: rest).foldl (cacheStep svc pre) (c, t))
        = rest.foldl (cacheStep svc pre) (cacheStep svc pre (c, t) m) := rfl
      _ = rest.foldl (cacheStep svc pre)
            (c ++ [(pre ++ keyPrefix m, countTokensVal (svc m) m)],
             t + countTokensVal (svc m) m) := by rw [hstep]
      _ = _ := by
            rw [ih _ _ hfresh' hnodup']
            simp [List.sum_cons, Nat.add_assoc]

/-- Inputs of one ChatGPT recomputation pass supplied by the (external) DOM
adapter and the tokenizer module. -/
structure GptEnv where
  userMsgs : List String
  asstMsgs : List String
  inputText : Option String
  svc : String → SvcResp
  modelLimit : Option ℕ
  hasScrollContent : Bool

/-- Embedding of `ChatGPTContextTracker.calculateContext` (chatgpt.ts lines
405-502): `hasMessages` from the extracted lists; per-message cache/count
loops (no text cleaning on this tracker); input text counted when non-empty;
then `if (hasMessages) totalTokens += 750` — the system-prompt estimate;
`maxTokens` from the plan's model table with its fallback chain (modelled as
`getD 16000`); one `update(totalTokens, maxTokens, hasScrollableContent)`
call; finally the capacity policy. -/
def calcGpt (env : GptEnv) (cache : List (String × ℕ)) :
    List (String × ℕ) × List UpdateCall :=
  let hasMessages := env.userMsgs ≠ [] ∨ env.asstMsgs ≠ []
  let s1 := env.userMsgs.foldl (cacheStep env.svc "user-") (cache, 0)
  let s2 := env.asstMsgs.foldl (cacheStep env.svc "assistant-") s1
  let t3 :=
    match env.inputText with
    | none => s2.2
    | some s => if s ≠ "" then s2.2 + countTokensVal (env.svc s) s else s2.2
  let total := if hasMessages then t3 + 750 else t3
  let maxTokens := env.modelLimit.getD 16000
  (pruneCache s2.1,
   [{ current := total, maxTokens := maxTokens,
      hasScroll := env.hasScrollContent, isLoading := false }])

/-- C9: on every ChatGPT pass starting from a fresh cache (with the distinct
message texts yielding distinct cache keys), the emitted total is the sum of
the per-message bridge counts and the input count, plus the constant 750
system-prompt estimate exactly when at least one message was detected; with
zero messages no constant is added. -/
theorem C9_system_prompt_constant (env : GptEnv)
    (hnodup : (env.userMsgs.map (fun s => "user-" ++ keyPrefix s) ++
      env.asstMsgs.map (fun s => "assistant-" ++ keyPrefix s)).Nodup) :
    (calcGpt env []).2 =
      [{ current :=
          ((env.userMsgs.map (fun s => countTokensVal (env.svc s) s)).sum +
            (env.asstMsgs.map (fun s => countTokensVal (env.svc s) s)).sum +
            (match env.inputText with
             | none => 0
             | some s => if s ≠ "" then countTokensVal (env.svc s) s else 0)) +
          (if env.userMsgs = [] ∧ env.asstMsgs = [] then 0 else 750)
       , maxTokens := env.modelLimit.getD 16000
       , hasScroll := env.hasScrollContent
       , isLoading := false }] := by
  obtain ⟨hnu, hna, hdisj⟩ := List.nodup_append.mp hnodup
  have hu := cacheStep_foldl env.svc "user-" env.userMsgs [] 0
    (fun s _ => rfl) hnu
  have hfreshA : ∀ s ∈ env.asstMsgs,
      mapGet (([] : List (String × ℕ)) ++
          env.userMsgs.map (fun s => ("user-" ++ keyPrefix s,
            countTokensVal (env.svc s) s)))
        ("assistant-" ++ keyPrefix s) = none := by
    intro s hs
    rw [mapGet_eq_none_iff]
    intro p hp
    simp only [List.nil_append, List.mem_map] at hp
    obtain ⟨u, hu', hpu⟩ := hp
    intro hpk
    have : ("user-" ++ keyPrefix u) = ("assistant-" ++ keyPrefix s) := by
      rw [← hpk, ← hpu]
    exact hdisj (List.mem_map_of_mem _ hu') (this ▸ List.mem_map_of_mem _ hs)
  have ha := cacheStep_foldl env.svc "assistant-" env.asstMsgs
    (([] : List (String × ℕ)) ++
      env.userMsgs.map (fun s => ("user-" ++ keyPrefix s,
        countTokensVal (env.svc s) s)))
    (0 + (env.userMsgs.map (fun s => countTokensVal (env.svc s) s)).sum)
    hfreshA hna
  unfold calcGpt
  simp only [hu, ha]
  by_cases hempty : env.userMsgs = [] ∧ env.asstMsgs = []
  · cases henv : env.inputText with
    | none => simp [hempty.1, hempty.2]
    | some s =>
      by_cases hse : s = "" <;> simp [hempty.1, hempty.2, hse]
  · have hmessages : env.userMsgs ≠ [] ∨ env.asstMsgs ≠ [] := by tauto
    cases henv : env.inputText with
    | none => simp [hmessages, hempty, Nat.add_assoc]
    | some s =>
      by_cases hse : s = "" <;>
        simp [hmessages, hempty, hse, Nat.add_assoc]

/-- Concrete ChatGPT pass used as the C9 witness. -/
def envC9 : GptEnv :=
  ⟨["Alpha"], ["Beta"], some "Gamma",
   fun t =>
     if t = "Alpha" then .success 4
     else if t = "Beta" then .success 6
     else .success 2,
   some 16000, false⟩

/-- Witness for C9 at a concrete two-message conversation. -/
theorem C9_system_prompt_constant_witness :
    ((envC9.userMsgs.map (fun s => "user-" ++ keyPrefix s) ++
      envC9.asstMsgs.map (fun s => "assistant-" ++ keyPrefix s)).Nodup) ∧
    (calcGpt envC9 []).2 =
      [{ current :=
          ((envC9.userMsgs.map (fun s => countTokensVal (envC9.svc s) s)).sum +
            (envC9.asstMsgs.map (fun s => countTokensVal (envC9.svc s) s)).sum +
            (match envC9.inputText with
             | none => 0
             | some s => if s ≠ "" then countTokensVal (envC9.svc s) s else 0)) +
          (if envC9.userMsgs = [] ∧ envC9.asstMsgs = [] then 0 else 750)
       , maxTokens := envC9.modelLimit.getD 16000
       , hasScroll := envC9.hasScrollContent
       , isLoading := false }] :=
  ⟨by decide, C9_system_prompt_constant envC9 (by decide)⟩

/-! ## Session switches (`handleChatSwitch`)

Both trackers poll the URL and call `handleChatSwitch` on a change.  The
claude.ts handler (lines 168-206) clears the cache, resets the initial-load
flag, disconnects both observers, and calls
`update(0, maxTokens, true)` — whose THIRD positional parameter is
`hasScrollableContent`; `isLoading` is left at its default `false`.  The
chatgpt.ts handler (lines 184-238) first short-circuits when the old and new
URL differ only in the `model` query parameter
(`url.replace(/[?&]model=[^&]*/, '')`), and otherwise emits
`update(0, maxTokens, false, true)` and clears the cache. -/

/-- Session state of the Claude tracker relevant to a chat switch. -/
structure ClaudeSession where
  currentUrl : String
  tokenCache : List (String × ℕ)
  hasCompletedInitialLoad : Bool
  observersConnected : Bool
  deriving Repr

/-- Embedding of `ClaudeContextTracker.handleChatSwitch` (claude.ts lines
168-206).  The emitted update call is `(0, maxTokens, true)` — positionally
`hasScrollableContent = true`, `isLoading = false`. -/
def handleChatSwitchClaude (st : ClaudeSession) (newUrl : String)
    (modelLimit : Option ℕ) : ClaudeSession × List UpdateCall :=
  if newUrl = st.currentUrl then (st, [])
  else
    ({ currentUrl := newUrl, tokenCache := [],
       hasCompletedInitialLoad := false, observersConnected := false },
     [{ current := 0, maxTokens := modelLimit.getD 50000,
        hasScroll := true, isLoading := false }])

/-- C6 (code evaluation at the failing input): on a Claude chat switch the
Token Cache is indeed emptied, but the single snapshot emitted before the
next pass carries `isLoading = false` (the `true` lands in the
`hasScrollableContent` slot), so the indicator renders a count-bearing
"⚠️ 0 / 200,000" badge in the `normal` colour scheme instead of the loading
state that both the claim and the code's own comment ("Show loading state
immediately for chat switches") require. -/
theorem C6_claude_switch_emits_no_loading :
    (handleChatSwitchClaude
        ⟨"https://claude.ai/chat/aaa", [("user-Hi", 3)], true, true⟩
        "https://claude.ai/chat/bbb" (some 200000)).1.tokenCache = [] ∧
    (handleChatSwitchClaude
        ⟨"https://claude.ai/chat/aaa", [("user-Hi", 3)], true, true⟩
        "https://claude.ai/chat/bbb" (some 200000)).2 =
      [{ current := 0, maxTokens := 200000, hasScroll := true, isLoading := false }] ∧
    (renderCall ⟨0, 200000, true, false⟩).loading = false ∧
    tierOfView (renderCall ⟨0, 200000, true, false⟩) = .normal ∧
    (renderCall ⟨0, 200000, true, false⟩).scrollWarn = true := by
  refine ⟨by decide, by decide, ?_, ?_, ?_⟩
  · show (updateView 0 200000 true false).loading = false
    rw [updateView_eq_N 0 200000 (by norm_num) true]
    decide
  · show tierOfView (updateView 0 200000 true false) = .normal
    rw [updateView_eq_N 0 200000 (by norm_num) true]
    decide
  · show (updateView 0 200000 true false).scrollWarn = true
    rw [updateView_eq_N 0 200000 (by norm_num) true]
    decide

/-- Scanner for `str.replace(/[?&]model=[^&]*/, '')`: at the first `?` or `&`
followed by `model=`, the match (that separator, `model=`, and the following
run of non-`&` characters) is removed and the remainder of the string is kept
verbatim; the replacement is non-global, so scanning stops at the first
match. -/
def stripScan : List Char → List Char
  | [] => []
  | c :: rest =>
    if (c = '?' ∨ c = '&') ∧ (String.toList "model=").isPrefixOf rest then
      (rest.drop 6).dropWhile (fun d => d ≠ '&')
    else c :: stripScan rest

/-- `url.replace(/[?&]model=[^&]*/, '')` as used by chatgpt.ts lines 189-190. -/
def stripModelParam (s : String) : String := String.mk (stripScan s.toList)

/-- Session state of the ChatGPT tracker relevant to a chat switch. -/
structure GptSession where
  currentUrl : String
  tokenCache : List (String × ℕ)
  observerConnected : Bool
  deriving Repr

/-- Embedding of `ChatGPTContextTracker.handleChatSwitch` (chatgpt.ts lines
184-238): no-op on an identical URL; when the URLs agree after stripping the
`model` query parameter, only `currentUrl` is updated; otherwise the loading
snapshot `update(0, maxTokens, false, true)` is emitted, the cache cleared
and the observer disconnected. -/
def handleChatSwitchGpt (st : GptSession) (newUrl : String) (maxTokens : ℕ) :
    GptSession × List UpdateCall :=
  if newUrl = st.currentUrl then (st, [])
  else if stripModelParam st.currentUrl = stripModelParam newUrl then
    ({ st with currentUrl := newUrl }, [])
  else
    ({ currentUrl := newUrl, tokenCache := [], observerConnected := false },
     [{ current := 0, maxTokens := maxTokens, hasScroll := false, isLoading := true }])

/-- Scanning a URL of the shape `p ++ "?model=" ++ v`, where `p` contains no
query separator and `v` no `&`, strips the whole query back to `p`. -/
lemma stripScan_model (p v : List Char)
    (hp : ∀ c ∈ p, c ≠ '?' ∧ c ≠ '&') (hv : '&' ∉ v) :
    stripScan (p ++ '?' :: (String.toList "model=" ++ v)) = p := by
  induction p with
  | nil =>
    simp only [List.nil_append, stripScan]
    rw [if_pos ⟨Or.inl trivial, List.isPrefixOf_iff_prefix.mpr (List.prefix_append _ _)⟩]
    rw [show (6 : ℕ) = (String.toList "model=").length from rfl, List.drop_left]
    rw [List.dropWhile_eq_nil_iff]
    intro c hc
    simp only [ne_eq, decide_eq_true_eq, Decidable.not_not]
    by_contra hcand
    exact absurd hc (hcand ▸ hv)
  | cons c p' ih =>
    have hc := hp c (by simp)
    simp only [List.cons_append, stripScan, List.append_eq]
    rw [if_neg]
    · rw [ih (fun d hd => hp d (by simp [hd]))]
    · intro hcontra
      rcases hcontra.1 with h | h
      · exact hc.1 h
      · exact hc.2 h

/-- C10: a URL change in which old and new URL differ only in the value of
the `model` query parameter (old `p ++ "?model=" ++ vx`, new
`p ++ "?model=" ++ vy`, with no other query separators) performs no session
reset: the Token Cache and the observer connection are untouched, no update
call — in particular no `isLoading = true` snapshot — is emitted, and only
the stored current URL changes. -/
theorem C10_model_param_change_no_reset (p vx vy : List Char)
    (st : GptSession) (mt : ℕ)
    (hp : ∀ c ∈ p, c ≠ '?' ∧ c ≠ '&') (hvx : '&' ∉ vx) (hvy : '&' ∉ vy)
    (hne : vx ≠ vy)
    (hurl : st.currentUrl = String.mk (p ++ '?' :: (String.toList "model=" ++ vx))) :
    handleChatSwitchGpt st
        (String.mk (p ++ '?' :: (String.toList "model=" ++ vy))) mt =
      ({ st with currentUrl :=
          String.mk (p ++ '?' :: (String.toList "model=" ++ vy)) }, []) := by
  unfold handleChatSwitchGpt
  rw [hurl]
  rw [if_neg, if_pos]
  · unfold stripModelParam
    have hx : (String.mk (p ++ '?' :: (String.toList "model=" ++ vx))).toList
        = p ++ '?' :: (String.toList "model=" ++ vx) := rfl
    have hy : (String.mk (p ++ '?' :: (String.toList "model=" ++ vy))).toList
        = p ++ '?' :: (String.toList "model=" ++ vy) := rfl
    rw [hx, hy, stripScan_model p vx hp hvx, stripScan_model p vy hp hvy]
  · intro he
    have hdata := congrArg String.toList he
    have hlist : p ++ '?' :: (String.toList "model=" ++ vy)
        = p ++ '?' :: (String.toList "model=" ++ vx) := hdata
    have h1 : '?' :: (String.toList "model=" ++ vy)
        = '?' :: (String.toList "model=" ++ vx) :=
      List.append_cancel_left hlist
    have h2 : String.toList "model=" ++ vy = String.toList "model=" ++ vx :=
      List.tail_eq_of_cons_eq h1
    exact hne (List.append_cancel_left h2).symm

/-- Fixed non-query URL prefix used in the C10 witness. -/
def urlPartC10 : List Char := String.toList "https://chatgpt.com/c/abc"

/-- Witness for C10: switching `?model=gpt-4o` to `?model=o3` on the same
conversation URL only updates the stored URL. -/
theorem C10_model_param_change_no_reset_witness :
    ((∀ c ∈ urlPartC10, c ≠ '?' ∧ c ≠ '&') ∧
      '&' ∉ String.toList "gpt-4o" ∧ '&' ∉ String.toList "o3" ∧
      String.toList "gpt-4o" ≠ String.toList "o3") ∧
    handleChatSwitchGpt
        ⟨String.mk (urlPartC10 ++ '?' :: (String.toList "model=" ++ String.toList "gpt-4o")),
         [("user-x", 1)], true⟩
        (String.mk (urlPartC10 ++ '?' :: (String.toList "model=" ++ String.toList "o3")))
        16000 =
      (⟨String.mk (urlPartC10 ++ '?' :: (String.toList "model=" ++ String.toList "o3")),
        [("user-x", 1)], true⟩, []) :=
  ⟨⟨by decide, by decide, by decide, by decide⟩,
   C10_model_param_change_no_reset urlPartC10
     (String.toList "gpt-4o") (String.toList "o3")
     ⟨String.mk (urlPartC10 ++ '?' :: (String.toList "model=" ++ String.toList "gpt-4o")),
      [("user-x", 1)], true⟩
     16000 (by decide) (by decide) (by decide) (by decide) rfl⟩

/-! ## Recalculation Scheduler (claude.ts)

`scheduleCalculation` (lines 369-384) always clears the pending debounce
timer first, returns without scheduling anything when `isCalculating` is
true, and otherwise sets a fresh 500 ms timer.  `calculateContext` (lines
386-393) returns immediately when `isCalculating` is already true, sets it
for the duration of the pass and resets it in `finally`.  The scheduler is
embedded as a state machine over the events visible to it: a change
notification (`scheduleCalculation`), the debounce timer firing, and the
running pass completing.  `passes` counts the passes that actually start. -/

inductive SchedEvent where
  | notify
  | fire
  | complete
  deriving DecidableEq, Repr

structure SchedState where
  timer : Bool
  running : Bool
  passes : ℕ
  deriving DecidableEq, Repr

/-- One scheduler step.  `notify`: `clearTimeout` then early-return if
calculating, else set a new timer.  `fire`: the pending timer (if any) is
consumed and `calculateContext` begins unless a pass is already running.
`complete`: the `finally` block resets `isCalculating`. -/
def schedStep (s : SchedState) (e : SchedEvent) : SchedState :=
  match e with
  | .notify =>
    if s.running then { s with timer := false }
    else { s with timer := true }
  | .fire =>
    if s.timer then
      if s.running then { s with timer := false }
      else { timer := false, running := true, passes := s.passes + 1 }
    else s
  | .complete =>
    if s.running then { s with running := false } else s

def schedRun (s : SchedState) (es : List SchedEvent) : SchedState :=
  es.foldl schedStep s

/-- C2: a change notification during `Running` does NOT schedule a trailing
pass.  In the trace `notify; fire; notify; complete` — one notification
arriving while the single pass runs — the final state after completion holds
no pending timer, is not running, and only 1 pass was ever started; the claim
requires a second (trailing) pass.  The notification was silently dropped. -/
theorem C2_no_trailing_pass_counterexample :
    schedRun ⟨false, false, 0⟩ [.notify, .fire, .notify, .complete] =
      ⟨false, false, 1⟩ := by
  decide

/-- C2 (amended): a change notification that arrives while a pass is running
is dropped entirely — it only clears any pending debounce timer (so it can
even cancel an already-owed pass) — and from the quiescent state reached when
the pass completes, no further pass can ever start without a fresh
notification. -/
theorem C2_notification_dropped_while_running :
    (∀ s : SchedState, s.running = true →
      schedStep s .notify = { s with timer := false }) ∧
    (∀ (n : ℕ) (es : List SchedEvent), SchedEvent.notify ∉ es →
      schedRun ⟨false, false, n⟩ es = ⟨false, false, n⟩) := by
  constructor
  · intro s hs
    unfold schedStep
    rw [if_pos hs]
  · intro n es
    induction es with
    | nil => intro _; rfl
    | cons e rest ih =>
      intro hne
      have he : e ≠ .notify := fun h => hne (h ▸ List.mem_cons_self e rest)
      have hrest : SchedEvent.notify ∉ rest := fun h => hne (List.mem_cons_of_mem e h)
      have hstep : schedStep ⟨false, false, n⟩ e = ⟨false, false, n⟩ := by
        cases e with
        | notify => exact absurd rfl he
        | fire => rfl
        | complete => rfl
      calc schedRun ⟨false, false, n⟩ (e :: rest)
          = schedRun (schedStep ⟨false, false, n⟩ e) rest := rfl
        _ = schedRun ⟨false, false, n⟩ rest := by rw [hstep]
        _ = ⟨false, false, n⟩ := ih hrest

/-- Witness for C2 (amended): a notification during a running pass only
clears the timer, and the post-completion quiescent state survives a
fire/complete tail without starting a pass. -/
theorem C2_notification_dropped_while_running_witness :
    ((⟨true, true, 5⟩ : SchedState).running = true ∧
      schedStep ⟨true, true, 5⟩ .notify = ⟨false, true, 5⟩) ∧
    (SchedEvent.notify ∉ ([.fire, .complete] : List SchedEvent) ∧
      schedRun ⟨false, false, 1⟩ [.fire, .complete] = ⟨false, false, 1⟩) :=
  ⟨⟨rfl, C2_notification_dropped_while_running.1 ⟨true, true, 5⟩ rfl⟩,
   ⟨by decide,
    C2_notification_dropped_while_running.2 1 [.fire, .complete] (by decide)⟩⟩

/-! ## Encoder initialization (C8)

JavaScript async functions run as cooperatively-scheduled segments: code
between two `await`s is atomic, and an interleaving of several calls is a
sequence of such segments.

In the service worker (service-worker.ts lines 21-26), `ensureInit` tests and
assigns `initPromise` with no `await` in between, so each call is a single
atomic segment and every concurrent caller after the first observes the
already-installed promise.

In tokenizer.ts (lines 8-35), `getEncoder` tests `initialized`, then performs
the WASM load across three `await`s, and only afterwards sets
`initialized = true` (likewise `encodingData` and then, synchronously,
`encoder`).  Two concurrent first-time callers can therefore both observe
`initialized === false` and both perform the underlying load. -/

/-- Shared state of the service worker's `ensureInit`. -/
structure SwState where
  promiseSet : Bool
  wasmLoads : ℕ
  deriving DecidableEq, Repr

/-- One (atomic) `ensureInit` call: `if (!initPromise) initPromise = loadWasm()`. -/
def swEnsureInit (g : SwState) : SwState :=
  if g.promiseSet then g else { promiseSet := true, wasmLoads := g.wasmLoads + 1 }

/-- Any number of `ensureInit` calls in any interleaving (each call is one
atomic segment, so an interleaving is just an iteration count). -/
def swRun : ℕ → SwState
  | 0 => { promiseSet := false, wasmLoads := 0 }
  | k + 1 => swEnsureInit (swRun k)

lemma swRun_succ_eq (k : ℕ) : swRun (k + 1) = { promiseSet := true, wasmLoads := 1 } := by
  induction k with
  | zero => rfl
  | succ k ih =>
    show swEnsureInit (swRun (k + 1)) = _
    rw [ih]
    rfl

/-- Shared state of tokenizer.ts's `getEncoder`: the three memo flags and
counters for the duplicable pieces of work. -/
structure TkState where
  initialized : Bool
  dataLoaded : Bool
  encoderMade : Bool
  wasmLoads : ℕ
  dataLoads : ℕ
  encoderNews : ℕ
  deriving DecidableEq, Repr

/-- Synchronous tail of `getEncoder` after the `initialized` block: start the
encoding-JSON fetch if `encodingData` is unset (yielding at its `await`),
else construct the `Tiktoken` encoder if missing and return. -/
def tkTail (g : TkState) : TkState × Option ℕ :=
  if ¬ g.dataLoaded then ({ g with dataLoads := g.dataLoads + 1 }, some 2)
  else if ¬ g.encoderMade then
    ({ g with encoderNews := g.encoderNews + 1, encoderMade := true }, none)
  else (g, none)

/-- One atomic segment of a `getEncoder` call at program counter `pc`:
`0` = function entry (test `initialized`; a first-time caller starts the WASM
load and suspends), `1` = resume after the WASM `await`s (`initialized =
true`, then the tail), `2` = resume after the JSON `await` (`encodingData`
set, then the encoder check).  Returns the new shared state and the next
program counter (`none` when the call returns). -/
def tkStep (g : TkState) (pc : ℕ) : TkState × Option ℕ :=
  match pc with
  | 0 =>
    if ¬ g.initialized then ({ g with wasmLoads := g.wasmLoads + 1 }, some 1)
    else tkTail g
  | 1 => tkTail { g with initialized := true }
  | 2 =>
    let g' := { g with dataLoaded := true }
    if ¬ g'.encoderMade then
      ({ g' with encoderNews := g'.encoderNews + 1, encoderMade := true }, none)
    else (g', none)
  | _ => (g, none)

/-- A system of concurrent `getEncoder` calls: the shared state plus each
call's program counter (`none` = returned). -/
structure TkSys where
  g : TkState
  calls : List (Option ℕ)
  deriving DecidableEq, Repr

/-- Run one scheduled segment of call `i` (no-op if `i` is invalid or the
call has returned). -/
def tkRunStep (sys : TkSys) (i : ℕ) : TkSys :=
  match sys.calls.get? i with
  | some (some pc) =>
    let r := tkStep sys.g pc
    { g := r.1, calls := sys.calls.set i r.2 }
  | _ => sys

/-- Run a schedule (list of call indices, each executing one segment). -/
def tkRun (sys : TkSys) (sched : List ℕ) : TkSys :=
  sched.foldl tkRunStep sys

/-- Two `getEncoder` calls, neither started, on a fresh module state. -/
def tkInit2 : TkSys :=
  ⟨⟨false, false, false, 0, 0, 0⟩, [some 0, some 0]⟩

/-- C8: the heavy encoder state is NOT always loaded once.  Under the legal
cooperative schedule that alternates two concurrent first-time `getEncoder`
calls (each segment separated by the code's own `await`s), both calls observe
`initialized === false` and both perform the underlying WASM load (and both
fetch the encoding JSON): the load count reaches 2, refuting
"at most once per process lifetime / concurrent calls collapse into one". -/
theorem C8_duplicate_load_counterexample :
    (tkRun tkInit2 [0, 1, 0, 1, 0, 1]).g.wasmLoads = 2 ∧
    (tkRun tkInit2 [0, 1, 0, 1, 0, 1]).g.dataLoads = 2 ∧
    (tkRun tkInit2 [0, 1, 0, 1, 0, 1]).calls = [none, none] := by
  decide

/-- C8 (amended): initialization is memoized only sequentially, and only the
service worker's `ensureInit` collapses concurrent calls.  (1) `ensureInit`
installs the shared promise in the same atomic segment that tests it, so any
number of calls in any interleaving perform at most one WASM load; (2) a
`getEncoder` call that starts after a previous call completed performs no
further load and constructs no second encoder; but (3) concurrent first-time
`getEncoder` calls may duplicate the load, as the counterexample shows. -/
theorem C8_sequential_memoized_concurrent_not :
    (∀ k : ℕ, (swRun k).wasmLoads ≤ 1) ∧
    (tkRun tkInit2 [0, 0, 0, 1]).g.wasmLoads = 1 ∧
    (tkRun tkInit2 [0, 0, 0, 1]).g.dataLoads = 1 ∧
    (tkRun tkInit2 [0, 0, 0, 1]).g.encoderNews = 1 ∧
    (tkRun tkInit2 [0, 0, 0, 1]).calls = [none, none] := by
  refine ⟨fun k => ?_, by decide, by decide, by decide, by decide⟩
  cases k with
  | zero => decide
  | succ k => rw [swRun_succ_eq k]

/-- Witness: the quantified conjunct of the amended C8 theorem at `k = 3`. -/
theorem C8_sequential_memoized_concurrent_not_witness :
    (swRun 3).wasmLoads ≤ 1 :=
  C8_sequential_memoized_concurrent_not.1 3
